import Mathlib

/-!
Verification of the elklog real-time logging library against its
natural-language specification.

The development shallowly embeds the C++ sources:
  * `src/include/elklog/rtloglevel.h`   — the `RtLogLevel` enum;
  * `src/include/elklog/rtlogmessage.h` — the fixed-capacity `RtLogMessage`;
  * `src/include/elklog/rtlogger.h`     — level filtering, the consumer worker;
  * `src/include/elklog/elk_logger.h`   — `ElkLogger` initialize / levels / close.

Byte strings are modelled as `List Nat` (byte values); a C string argument is
modelled as the list of its bytes strictly before the terminating null.
Machine `size_t` values are modelled as `Nat` (no arithmetic in the embedded
code can overflow 64 bits on the inputs considered).
-/

namespace elklog

/-- Bytes of a Lean string literal, used to write concrete byte strings. -/
def bytes (s : String) : List Nat :=
  s.toList.map Char.toNat

/-- From `rtloglevel.h`: `enum class RtLogLevel : int { ERROR, WARNING, INFO, DBG }`.
Underlying ordinals follow the declaration order, `ERROR` being `0`. -/
inductive RtLogLevel : Type
  | ERROR
  | WARNING
  | INFO
  | DBG
deriving DecidableEq, Repr

/-- Underlying integer value of the `enum class RtLogLevel : int` enumerator. -/
def RtLogLevel.toCInt : RtLogLevel → Nat
  | .ERROR => 0
  | .WARNING => 1
  | .INFO => 2
  | .DBG => 3

/-- The C++ comparison `a < b` on two `RtLogLevel` values: comparison of the
underlying integer values. -/
def RtLogLevel.lt (a b : RtLogLevel) : Bool :=
  a.toCInt < b.toCInt

/-- From `rtlogmessage.h`: the state of an `RtLogMessage<buffer_len>` object.
`buffer` models the `std::array<char, buffer_len> _buffer` member, `length`
the `size_t _length` member, `timestamp` the `std::chrono::nanoseconds`
member (its tick count). -/
structure RtLogMessage (buffer_len : Nat) : Type where
  level : RtLogLevel
  timestamp : Int
  length : Nat
  buffer : List Nat
deriving DecidableEq, Repr

/-- C `strncpy(dest, src, n)` viewed as producing the `n` destination bytes:
`src` is the byte list before the source's terminating null.  At most `n`
bytes of the source (terminator included) are copied and the remainder of the
`n` bytes is null-padded; when `src.length ≥ n` no terminator is written. -/
def strncpyBytes (src : List Nat) (n : Nat) : List Nat :=
  src.take n ++ List.replicate (n - src.length) 0

/-- C `strlen` of a string given as the byte list before its terminating
null: simply the list length. -/
def strlenBytes (src : List Nat) : Nat :=
  src.length

/-- Reading a C string out of a byte buffer (`const char*` pointing at the
buffer): the bytes up to the first null.  When the buffer holds no null the
real code reads past the array (undefined behaviour); the model then yields
the whole buffer. -/
def cstrOf (buf : List Nat) : List Nat :=
  buf.takeWhile (fun b => b ≠ 0)

/-- From `rtlogmessage.h` lines 112–116, `RtLogMessage::_set_message_str`:
`strncpy(_buffer.data(), message, buffer_len); _length = strlen(message);`.
The argument is the C string at the source pointer (bytes before its null). -/
def RtLogMessage.set_message_str {buffer_len : Nat} (m : RtLogMessage buffer_len)
    (message : List Nat) : RtLogMessage buffer_len :=
  { m with
    buffer := strncpyBytes message buffer_len
    length := strlenBytes message }

/-- From `rtlogmessage.h` lines 41–47, the default constructor: level `INFO`,
timestamp `0`, length `0`, and only `_buffer[0]` initialised to `0`; the
remaining `buffer_len - 1` bytes are uninitialised and modelled by the
`junk` argument (padded/truncated to the array size). -/
def RtLogMessage.defaultCtor (buffer_len : Nat) (junk : List Nat) :
    RtLogMessage buffer_len :=
  { level := RtLogLevel.INFO
    timestamp := 0
    length := 0
    buffer := (0 :: (junk ++ List.replicate buffer_len 0)).take buffer_len }

/-- From `rtlogmessage.h` lines 94–109, `RtLogMessage::reset` (the
message-setting operation, called `set_message` by the tests and by
`RtLogger::log`): `fmt::format_to` renders the format string and arguments
into `temp_buffer`; a null byte is pushed; then `_set_message_str(&temp_buffer[0])`
runs and `_level`/`_timestamp` are stored.  `rendered` is the byte list the
formatter produced, so the C string at `&temp_buffer[0]` is its prefix before
any interior null. -/
def RtLogMessage.reset {buffer_len : Nat} (m : RtLogMessage buffer_len)
    (level : RtLogLevel) (timestamp : Int) (rendered : List Nat) :
    RtLogMessage buffer_len :=
  let m1 := m.set_message_str (cstrOf (rendered ++ [0]))
  { m1 with level := level, timestamp := timestamp }

/-- From `rtlogmessage.h` lines 59–73, `RtLogMessage::operator=`: copies
`_level`, `_timestamp`, `_length`, then calls
`_set_message_str(rhs._buffer.data())` (which overwrites `_length` with
`strlen(rhs._buffer.data())`). -/
def RtLogMessage.assign {buffer_len : Nat} (_lhs rhs : RtLogMessage buffer_len) :
    RtLogMessage buffer_len :=
  let d := { _lhs with
    level := rhs.level
    timestamp := rhs.timestamp
    length := rhs.length }
  d.set_message_str (cstrOf rhs.buffer)

/-- From `rtlogmessage.h` lines 75–78, `RtLogMessage::message`: the C string
at `&_buffer[0]`. -/
def RtLogMessage.message {buffer_len : Nat} (m : RtLogMessage buffer_len) :
    List Nat :=
  cstrOf m.buffer

/-- The invariant claimed by the spec for `RtLogMessage<N>`:
`length <= N-1` and `text[length] == 0` (the indexing is in range).  The
`getD` default `1` makes an out-of-range read fail the predicate. -/
def rtInvariant {buffer_len : Nat} (m : RtLogMessage buffer_len) : Prop :=
  m.length ≤ buffer_len - 1 ∧ m.buffer.getD m.length 1 = 0

instance {buffer_len : Nat} (m : RtLogMessage buffer_len) :
    Decidable (rtInvariant m) := by
  unfold rtInvariant
  infer_instance

/-- The over-long input of unit test `RtLogMessageTest.TestMaxSize`
(`rtlogmessage_test.cpp`): buffer capacity 24, format
`"Test message is too {}, {}"` with arguments `"long and will be clipped"`
and `1`; the rendered output (47 bytes). -/
def overlongRendered : List Nat :=
  bytes "Test message is too long and will be clipped, 1"

/-- The message object of `TestMaxSize` after the message-setting call. -/
def c1Msg : RtLogMessage 24 :=
  (RtLogMessage.defaultCtor 24 []).reset RtLogLevel.WARNING 123 overlongRendered

/-- Well-formedness of a message value: the buffer has the declared array
size, the stored length is in range, the byte at index `length` is the null
terminator and no earlier byte is null.  Every value reachable through the
constructor and through `reset` with a fitting rendered output satisfies
this. -/
def wellFormed {buffer_len : Nat} (m : RtLogMessage buffer_len) : Prop :=
  m.buffer.length = buffer_len ∧
  m.length < buffer_len ∧
  m.buffer.getD m.length 1 = 0 ∧
  ∀ i < m.length, m.buffer.getD i 0 ≠ 0

instance {buffer_len : Nat} (m : RtLogMessage buffer_len) :
    Decidable (wellFormed m) := by
  unfold wellFormed
  infer_instance

/-- C `::tolower` on a byte (the "C" locale): ASCII upper-case letters map
to lower case, everything else is unchanged. -/
def ctolower (c : Nat) : Nat :=
  if 65 ≤ c ∧ c ≤ 90 then c + 32 else c

/-- From `rtlogger.h` / `elk_logger.h`:
`std::transform(s.begin(), s.end(), out.begin(), ::tolower)`. -/
def lowercased (s : List Nat) : List Nat :=
  s.map ctolower

/-- From `rtlogger.h` lines 73–92: the `level_map` built by
`RtLogger::set_log_level`. -/
def rtLevelMap : List (List Nat × RtLogLevel) :=
  [(bytes "debug", RtLogLevel.DBG),
   (bytes "info", RtLogLevel.INFO),
   (bytes "warning", RtLogLevel.WARNING),
   (bytes "error", RtLogLevel.ERROR)]

/-- From `rtlogger.h` lines 73–92, the body of `RtLogger::set_log_level`:
lower-case the argument, look it up in `level_map` and fall back to `INFO`
when the key is absent. -/
def RtLogger.parse_log_level (s : List Nat) : RtLogLevel :=
  match rtLevelMap.lookup (lowercased s) with
  | some lv => lv
  | none => RtLogLevel.INFO

/-- Modelled from the spec: the vendored single-producer/single-consumer
`CircularFifo` (`fifo/circularfifo_memory_relaxed_aquire_release.h`) is not
under `src/`; per spec §4.3 `push` inserts at the write position and returns
`false` without blocking when the queue is full.  The queue content is the
list of unread messages, oldest first. -/
def fifoPush {α : Type} (capacity : Nat) (q : List α) (m : α) :
    List α × Bool :=
  if q.length < capacity then (q ++ [m], true) else (q, false)

/-- Modelled from the spec: `pop` removes the oldest unread message and
returns `false` (here `none`) when the queue is empty (spec §4.3). -/
def fifoPop {α : Type} (q : List α) : Option (α × List α) :=
  match q with
  | [] => none
  | m :: rest => some (m, rest)

/-- Pushing a sequence of messages one after another with no intervening
pops; yields the final queue and the success flag of each push. -/
def fifoPushSeq {α : Type} (capacity : Nat) (q : List α) :
    List α → List α × List Bool
  | [] => (q, [])
  | m :: ms =>
    let r := fifoPush capacity q m
    let rest := fifoPushSeq capacity r.1 ms
    (rest.1, r.2 :: rest.2)

/-- Popping repeatedly until the queue reports empty, collecting the popped
messages in order. -/
def fifoPopAll {α : Type} : List α → List α
  | [] => []
  | m :: rest => m :: fifoPopAll rest

/-- State of an `RtLogger<message_len, fifo_size>` relevant to logging:
the `_min_log_level` member and the `_queue` contents. -/
structure RtLoggerState (message_len fifo_size : Nat) : Type where
  min_log_level : RtLogLevel
  queue : List (RtLogMessage message_len)
deriving DecidableEq, Repr

/-- From `rtlogger.h` lines 73–92, `RtLogger::set_log_level`: stores the
parsed level into `_min_log_level`. -/
def RtLogger.set_log_level {N C : Nat} (st : RtLoggerState N C)
    (min_log_level : List Nat) : RtLoggerState N C :=
  { st with min_log_level := RtLogger.parse_log_level min_log_level }

/-- From `rtlogger.h` lines 94–107, `RtLogger::log<level>`: return
immediately when `_min_log_level < level`; otherwise build a message on the
stack (default constructor then `set_message` with the current time and the
rendered output) and push it onto `_queue` (ignoring the push result). -/
def RtLogger.log {N C : Nat} (st : RtLoggerState N C) (level : RtLogLevel)
    (timestamp : Int) (rendered : List Nat) : RtLoggerState N C :=
  if RtLogLevel.lt st.min_log_level level then st
  else
    let message := (RtLogMessage.defaultCtor N []).reset level timestamp rendered
    { st with queue := (fifoPush C st.queue message).1 }

/-- From `rtlogger.h` lines 109–113: `log_debug` forwards to
`log<RtLogLevel::DBG>`. -/
def RtLogger.log_debug {N C : Nat} (st : RtLoggerState N C)
    (timestamp : Int) (rendered : List Nat) : RtLoggerState N C :=
  RtLogger.log st RtLogLevel.DBG timestamp rendered

/-- From `rtlogger.h` lines 115–119: `log_info` forwards to
`log<RtLogLevel::INFO>`. -/
def RtLogger.log_info {N C : Nat} (st : RtLoggerState N C)
    (timestamp : Int) (rendered : List Nat) : RtLoggerState N C :=
  RtLogger.log st RtLogLevel.INFO timestamp rendered

/-- From `rtlogger.h` lines 121–125: `log_warning` forwards to
`log<RtLogLevel::WARNING>`. -/
def RtLogger.log_warning {N C : Nat} (st : RtLoggerState N C)
    (timestamp : Int) (rendered : List Nat) : RtLoggerState N C :=
  RtLogger.log st RtLogLevel.WARNING timestamp rendered

/-- From `rtlogger.h` lines 127–131: `log_error` forwards to
`log<RtLogLevel::ERROR>`. -/
def RtLogger.log_error {N C : Nat} (st : RtLoggerState N C)
    (timestamp : Int) (rendered : List Nat) : RtLoggerState N C :=
  RtLogger.log st RtLogLevel.ERROR timestamp rendered

/-- Control position of the consumer worker of `rtlogger.h` lines 135–146:
about to test `_consumer_running` at the `while` head, inside the inner
pop-and-forward loop, about to sleep, or returned. -/
inductive WorkerPhase : Type
  | checkFlag
  | drainLoop
  | sleeping
  | exited
deriving DecidableEq, Repr

/-- Joint state of the consumer thread (`RtLogger::_consumer_worker`), the
`_consumer_running` flag, the queue and the messages delivered to
`_consumer_callback` so far. -/
structure ConsumerState (message_len : Nat) : Type where
  running : Bool
  queue : List (RtLogMessage message_len)
  delivered : List (RtLogMessage message_len)
  phase : WorkerPhase
deriving DecidableEq, Repr

/-- One small step of `RtLogger::_consumer_worker` (`rtlogger.h` lines
135–146): the outer `while (_consumer_running)` re-checks the flag after
each drain-and-sleep cycle; the inner `while (_queue.pop(message))` forwards
each popped message to the callback in pop order. -/
def workerStep {N : Nat} (s : ConsumerState N) : ConsumerState N :=
  match s.phase with
  | WorkerPhase.checkFlag =>
    if s.running then { s with phase := WorkerPhase.drainLoop }
    else { s with phase := WorkerPhase.exited }
  | WorkerPhase.drainLoop =>
    match s.queue with
    | [] => { s with phase := WorkerPhase.sleeping }
    | m :: rest =>
      { s with queue := rest, delivered := s.delivered ++ [m] }
  | WorkerPhase.sleeping => { s with phase := WorkerPhase.checkFlag }
  | WorkerPhase.exited => s

/-- Running the consumer worker for a given number of small steps. -/
def workerRun {N : Nat} : Nat → ConsumerState N → ConsumerState N
  | 0, s => s
  | n + 1, s => workerRun n (workerStep s)

/-- From `rtlogger.h` lines 64–71, the first action of `RtLogger::~RtLogger`:
`_consumer_running.store(false)`.  The destructor then joins the consumer
thread, i.e. waits until the worker reaches `exited`. -/
def destructorStop {N : Nat} (s : ConsumerState N) : ConsumerState N :=
  { s with running := false }

/-- From `log_return_code.h`: `enum class Status`. -/
inductive Status : Type
  | OK
  | INVALID_LOG_LEVEL
  | FAILED_TO_START_LOGGER
  | INVALID_FLUSH_INTERVAL
  | LOGGER_NOT_INITIALIZED
deriving DecidableEq, Repr

/-- The spdlog level enumeration as used by `elk_logger.h` (`debug`, `info`,
`warn`, `err`, `critical`). -/
inductive SpdLevel : Type
  | debug
  | info
  | warn
  | err
  | critical
deriving DecidableEq, Repr

/-- From `elk_logger.h` lines 186–211: the `level_map` built by
`ElkLogger::set_log_level` — note it contains five keys, `critical`
included. -/
def elkLevelMap : List (List Nat × SpdLevel) :=
  [(bytes "debug", SpdLevel.debug),
   (bytes "info", SpdLevel.info),
   (bytes "warning", SpdLevel.warn),
   (bytes "error", SpdLevel.err),
   (bytes "critical", SpdLevel.critical)]

/-- From `elk_logger.h` lines 186–211, the status computed by
`ElkLogger::set_log_level`: `INVALID_LOG_LEVEL` when
`level_map.count(lowercase) <= 0`, else `OK`. -/
def ElkLogger.set_log_level_status (min_log_level : List Nat) : Status :=
  if elkLevelMap.lookup (lowercased min_log_level) = none then
    Status.INVALID_LOG_LEVEL
  else Status.OK

/-- Modelled from the spec: the global spdlog logger registry (spdlog is an
external dependency, not under `src/`); it maps registered logger names and
is queried with `spdlog::get`, shrunk with `spdlog::drop`. -/
structure SpdRegistry : Type where
  names : List (List Nat)
deriving DecidableEq, Repr

/-- Modelled from the spec: `spdlog::get(name)` — whether `name` is
registered. -/
def SpdRegistry.get (r : SpdRegistry) (name : List Nat) : Bool :=
  decide (name ∈ r.names)

/-- Modelled from the spec: `spdlog::drop(name)` — remove the registration
of `name`. -/
def SpdRegistry.drop (r : SpdRegistry) (name : List Nat) : SpdRegistry :=
  ⟨r.names.erase name⟩

/-- Modelled from the spec: `spdlog::rotating_logger_mt` registers a new
logger under `name` and throws when the name is already registered (spec §8:
initializing twice with the same name without the duplicate-drop option
fails). -/
def SpdRegistry.rotating_logger_mt (r : SpdRegistry) (name : List Nat) :
    Except Unit SpdRegistry :=
  if r.get name then Except.error () else Except.ok ⟨r.names ++ [name]⟩

/-- Result of `ElkLogger::initialize`: the returned status, the registry
afterwards, and whether a backend logger instance was created by the call. -/
structure InitResult : Type where
  status : Status
  registry : SpdRegistry
  logger_created : Bool
deriving DecidableEq, Repr

/-- From `elk_logger.h` lines 109–184, `ElkLogger::initialize`: first
`set_log_level(_min_log_level)` and return its status when not `OK` (before
any backend logger is created); then optionally drop an existing logger of
the same name when `drop_logger_if_duplicate` is set; then create the
rotating logger, mapping a thrown exception to `FAILED_TO_START_LOGGER`. -/
def ElkLogger.initializeLogger (min_log_level : List Nat) (reg : SpdRegistry)
    (logger_name : List Nat) (drop_logger_if_duplicate : Bool) : InitResult :=
  let status := ElkLogger.set_log_level_status min_log_level
  if status ≠ Status.OK then ⟨status, reg, false⟩
  else
    let reg1 :=
      if drop_logger_if_duplicate then
        if reg.get logger_name then reg.drop logger_name else reg
      else reg
    match reg1.rotating_logger_mt logger_name with
    | Except.error _ => ⟨Status.FAILED_TO_START_LOGGER, reg1, false⟩
    | Except.ok reg2 => ⟨Status.OK, reg2, true⟩

/-- From `elk_logger.h`: `enum class Type { TEXT, JSON }`. -/
inductive ElkLoggerType : Type
  | TEXT
  | JSON
deriving DecidableEq, Repr

/-- Runtime state of an initialized `ElkLogger`: the `_closed` flag, the
`_type`, the embedded `RtLogger` state, the sequence of leveled entries
written to the backend `_logger_instance`, and the number of backend flush
calls. -/
structure ElkLoggerState (message_len fifo_size : Nat) : Type where
  closed : Bool
  type : ElkLoggerType
  rt : RtLoggerState message_len fifo_size
  backend : List (SpdLevel × List Nat)
  flushes : Nat
deriving DecidableEq, Repr

/-- From `elk_logger.h` lines 213–226, `ElkLogger::debug`: return when
`_closed`; on a real-time thread forward to `_rt_logger->log_debug`, else
call the backend's `debug`.  `isRt` models `twine::is_current_thread_realtime()`,
`rendered` the formatted payload. -/
def ElkLogger.debug {N C : Nat} (st : ElkLoggerState N C) (isRt : Bool)
    (timestamp : Int) (rendered : List Nat) : ElkLoggerState N C :=
  if st.closed = true then st
  else if isRt then { st with rt := RtLogger.log_debug st.rt timestamp rendered }
  else { st with backend := st.backend ++ [(SpdLevel.debug, rendered)] }

/-- From `elk_logger.h` lines 228–241, `ElkLogger::info`. -/
def ElkLogger.info {N C : Nat} (st : ElkLoggerState N C) (isRt : Bool)
    (timestamp : Int) (rendered : List Nat) : ElkLoggerState N C :=
  if st.closed = true then st
  else if isRt then { st with rt := RtLogger.log_info st.rt timestamp rendered }
  else { st with backend := st.backend ++ [(SpdLevel.info, rendered)] }

/-- From `elk_logger.h` lines 243–256, `ElkLogger::warning`. -/
def ElkLogger.warning {N C : Nat} (st : ElkLoggerState N C) (isRt : Bool)
    (timestamp : Int) (rendered : List Nat) : ElkLoggerState N C :=
  if st.closed = true then st
  else if isRt then { st with rt := RtLogger.log_warning st.rt timestamp rendered }
  else { st with backend := st.backend ++ [(SpdLevel.warn, rendered)] }

/-- From `elk_logger.h` lines 258–271, `ElkLogger::error`. -/
def ElkLogger.error {N C : Nat} (st : ElkLoggerState N C) (isRt : Bool)
    (timestamp : Int) (rendered : List Nat) : ElkLoggerState N C :=
  if st.closed = true then st
  else if isRt then { st with rt := RtLogger.log_error st.rt timestamp rendered }
  else { st with backend := st.backend ++ [(SpdLevel.err, rendered)] }

/-- From `elk_logger.h` lines 273–286, `ElkLogger::critical`: on the
real-time path it forwards to `log_error`. -/
def ElkLogger.critical {N C : Nat} (st : ElkLoggerState N C) (isRt : Bool)
    (timestamp : Int) (rendered : List Nat) : ElkLoggerState N C :=
  if st.closed = true then st
  else if isRt then { st with rt := RtLogger.log_error st.rt timestamp rendered }
  else { st with backend := st.backend ++ [(SpdLevel.critical, rendered)] }

/-- From `elk_logger.h` lines 288–317, `ElkLogger::close_log`: for a
non-JSON logger flush and set `_closed`; for a JSON logger that is not
already closed, flush, emit the final `Finished` entry, flush again and set
`_closed`. -/
def ElkLogger.close_log {N C : Nat} (st : ElkLoggerState N C) :
    ElkLoggerState N C :=
  if st.type ≠ ElkLoggerType.JSON then
    { st with flushes := st.flushes + 1, closed := true }
  else if st.closed = true then st
  else
    { st with
      flushes := st.flushes + 2
      backend := st.backend ++
        [(SpdLevel.info, bytes "\x7b \"status\": \"Finished\" \x7d")]
      closed := true }

/-- From `elk_logger.h` lines 335–357, `ElkLogger::_rt_logger_callback`:
discard the message when `_closed`, otherwise forward its text to the
backend entry point matching its level. -/
def ElkLogger.rt_logger_callback {N C : Nat} (st : ElkLoggerState N C)
    (msg : RtLogMessage N) : ElkLoggerState N C :=
  if st.closed = true then st
  else
    let lvl := match msg.level with
      | RtLogLevel.DBG => SpdLevel.debug
      | RtLogLevel.INFO => SpdLevel.info
      | RtLogLevel.WARNING => SpdLevel.warn
      | RtLogLevel.ERROR => SpdLevel.err
    { st with backend := st.backend ++ [(lvl, msg.message)] }

/-- Concrete source message for the C5 witness. -/
def c5Src : RtLogMessage 8 :=
  (RtLogMessage.defaultCtor 8 []).reset RtLogLevel.ERROR 5 (bytes "hi")

/-- Concrete message sequence for the C3 witness. -/
def c3Msgs : List (RtLogMessage 8) :=
  [(RtLogMessage.defaultCtor 8 []).reset RtLogLevel.INFO 1 (bytes "one"),
   (RtLogMessage.defaultCtor 8 []).reset RtLogLevel.WARNING 2 (bytes "two"),
   (RtLogMessage.defaultCtor 8 []).reset RtLogLevel.ERROR 3 (bytes "three")]

/-- Concrete already-closed logger state for the C10 witness. -/
def c10St : ElkLoggerState 8 4 :=
  { closed := true
    type := ElkLoggerType.TEXT
    rt := { min_log_level := RtLogLevel.INFO, queue := [] }
    backend := []
    flushes := 0 }

theorem takeWhile_eq_take_of_nullAt (buf : List Nat) (len : Nat)
    (h0 : buf.getD len 1 = 0) (hne : ∀ i < len, buf.getD i 0 ≠ 0) :
    buf.takeWhile (fun b => b ≠ 0) = buf.take len := by
  induction buf generalizing len with
  | nil => simp [List.getD] at h0
  | cons a t ih =>
    cases len with
    | zero =>
      simp only [List.getD, List.get?, Option.getD] at h0
      simp [List.takeWhile_cons, h0]
    | succ k =>
      have ha : a ≠ 0 := by
        have := hne 0 (Nat.succ_pos k)
        simpa [List.getD] using this
      have h0' : t.getD k 1 = 0 := by
        simpa [List.getD] using h0
      have hne' : ∀ i < k, t.getD i 0 ≠ 0 := by
        intro i hi
        have := hne (i + 1) (Nat.succ_lt_succ hi)
        simpa [List.getD] using this
      simpa [List.takeWhile_cons, ha] using ih k h0' hne'

theorem takeWhile_append_zero (c rest : List Nat) (hc : ∀ x ∈ c, x ≠ 0) :
    (c ++ 0 :: rest).takeWhile (fun b => b ≠ 0) = c := by
  induction c with
  | nil => simp [List.takeWhile_cons]
  | cons a t ih =>
    have ha : a ≠ 0 := hc a (List.mem_cons_self a t)
    have ht : ∀ x ∈ t, x ≠ 0 := fun x hx => hc x (List.mem_cons_of_mem a hx)
    simpa [List.takeWhile_cons, ha] using ih ht

theorem cstrOf_of_wellFormed {buffer_len : Nat} (m : RtLogMessage buffer_len)
    (h : wellFormed m) : cstrOf m.buffer = m.buffer.take m.length := by
  exact takeWhile_eq_take_of_nullAt m.buffer m.length h.2.2.1 h.2.2.2

theorem cstrOf_length_of_wellFormed {buffer_len : Nat}
    (m : RtLogMessage buffer_len) (h : wellFormed m) :
    (cstrOf m.buffer).length = m.length := by
  rw [cstrOf_of_wellFormed m h, List.length_take]
  have h1 := h.1
  have h2 := h.2.1
  omega

theorem cstrOf_nonzero {buf : List Nat} {x : Nat} (hx : x ∈ cstrOf buf) :
    x ≠ 0 := by
  have := List.mem_takeWhile_imp hx
  simpa using this

/-- C5: assignment copies level, timestamp, length and message content from
the source (here under the well-formedness invariant, which all values built
by the constructor and by in-capacity `reset` calls satisfy), the result is
again well-formed, and it does not depend on the previous value of the
destination — together with the value semantics of the model this gives
independence from later mutation of the source. -/
theorem C5_assign_copies (buffer_len : Nat) (dst src : RtLogMessage buffer_len)
    (h : wellFormed src) :
    (dst.assign src).level = src.level ∧
    (dst.assign src).timestamp = src.timestamp ∧
    (dst.assign src).length = src.length ∧
    (dst.assign src).message = src.message ∧
    wellFormed (dst.assign src) ∧
    ∀ dst2 : RtLogMessage buffer_len, dst2.assign src = dst.assign src := by
  obtain ⟨hbuf, hlen, hnull, hpos⟩ := h
  have hc : cstrOf src.buffer = src.buffer.take src.length :=
    cstrOf_of_wellFormed src ⟨hbuf, hlen, hnull, hpos⟩
  have hclen : (cstrOf src.buffer).length = src.length :=
    cstrOf_length_of_wellFormed src ⟨hbuf, hlen, hnull, hpos⟩
  have hlt : src.length < buffer_len := hlen
  -- the copied buffer: the source C string followed by null padding
  have hstrncpy : strncpyBytes (cstrOf src.buffer) buffer_len =
      cstrOf src.buffer ++
        List.replicate (buffer_len - src.length) 0 := by
    unfold strncpyBytes
    rw [List.take_of_length_le (by omega), hclen]
  have hrest : List.replicate (buffer_len - src.length) 0 =
      0 :: List.replicate (buffer_len - src.length - 1) 0 := by
    have h1 : buffer_len - src.length = (buffer_len - src.length - 1) + 1 := by
      omega
    nth_rewrite 1 [h1]
    rw [List.replicate_succ]
  have hmsg : (dst.assign src).message = src.message := by
    show cstrOf (strncpyBytes (cstrOf src.buffer) buffer_len) = cstrOf src.buffer
    rw [hstrncpy, hrest]
    exact takeWhile_append_zero _ _ (fun x hx => cstrOf_nonzero hx)
  refine ⟨rfl, rfl, ?_, hmsg, ?_, fun dst2 => rfl⟩
  · show strlenBytes (cstrOf src.buffer) = src.length
    exact hclen
  · refine ⟨?_, ?_, ?_, ?_⟩
    · show (strncpyBytes (cstrOf src.buffer) buffer_len).length = buffer_len
      rw [hstrncpy, List.length_append, hclen, List.length_replicate]
      omega
    · show strlenBytes (cstrOf src.buffer) < buffer_len
      rw [strlenBytes, hclen]
      exact hlt
    · show (strncpyBytes (cstrOf src.buffer) buffer_len).getD
        (strlenBytes (cstrOf src.buffer)) 1 = 0
      simp only [strlenBytes]
      rw [hstrncpy, hrest,
        List.getD_append_right _ _ _ _ (Nat.le_refl _), Nat.sub_self]
      rfl
    · intro i hi
      show (strncpyBytes (cstrOf src.buffer) buffer_len).getD i 0 ≠ 0
      have hic : i < (cstrOf src.buffer).length := hi
      rw [hstrncpy, List.getD_append _ _ _ _ hic, List.getD_eq_getElem _ _ hic]
      exact cstrOf_nonzero (List.getElem_mem hic)

/-- C1: the claim states that after a message-setting call whose rendered
output exceeds `N-1` bytes (capacity 24, rendered output of 47 bytes), the
stored text is the first `N-1 = 23` bytes, the buffer is null-terminated and
the stored length is `23`.  The code instead stores length `47`, copies the
first `24` bytes and leaves no null byte anywhere in the buffer (so
`message()` reads past the array in the real code): the claim fails on the
code, while the repository's own unit test `TestMaxSize` asserts exactly the
claimed behaviour (length 23, text `"Test message is too lon"`). -/
theorem C1_truncation_code_bug :
    c1Msg.length = 47 ∧
    c1Msg.length ≠ 23 ∧
    (0 : Nat) ∉ c1Msg.buffer ∧
    c1Msg.buffer = bytes "Test message is too long" ∧
    c1Msg.buffer.getD 23 0 = 103 ∧
    c1Msg.message ≠ bytes "Test message is too lon" := by
  decide

/-- C2: the claimed invariant (`length ≤ N-1` and `text[length] = 0`) is
established by the default constructor (for any junk in the uninitialised
bytes, here a concrete one) but is violated by `reset` on the over-long
input of unit test `TestMaxSize`: afterwards `length = 47 > 23` and the
buffer holds no null byte at all. -/
theorem C2_invariant_code_bug :
    rtInvariant (RtLogMessage.defaultCtor 24 (bytes "uninitialised junk bytes")) ∧
    ¬ rtInvariant c1Msg := by
  decide

theorem fifoPushSeq_all_ok {α : Type} (capacity : Nat) (ms : List α) :
    ∀ q : List α, q.length + ms.length ≤ capacity →
      fifoPushSeq capacity q ms = (q ++ ms, List.replicate ms.length true) := by
  induction ms with
  | nil => intro q h; simp [fifoPushSeq]
  | cons m ms ih =>
    intro q h
    have hlt : q.length < capacity := by
      simp [List.length_cons] at h
      omega
    have hrec := ih (q ++ [m]) (by simp [List.length_append] at h ⊢; omega)
    simp [fifoPushSeq, fifoPush, hlt, hrec, List.replicate_succ]

theorem fifoPopAll_id {α : Type} (q : List α) : fifoPopAll q = q := by
  induction q with
  | nil => rfl
  | cons m rest ih => simp [fifoPopAll, ih]

theorem fifoPopAll_pop {α : Type} (q : List α) :
    fifoPopAll q = (match fifoPop q with
      | none => []
      | some (m, rest) => m :: fifoPopAll rest) := by
  cases q <;> rfl

theorem workerRun_add {N : Nat} (m n : Nat) (s : ConsumerState N) :
    workerRun (m + n) s = workerRun n (workerRun m s) := by
  induction m generalizing s with
  | zero => rw [Nat.zero_add]; rfl
  | succ k ih =>
    rw [Nat.succ_add]
    show workerRun (k + n) (workerStep s) = _
    rw [ih (workerStep s)]
    rfl

theorem workerStep_exited {N : Nat} (s : ConsumerState N)
    (h : s.phase = WorkerPhase.exited) : workerStep s = s := by
  simp [workerStep, h]

theorem workerRun_exited {N : Nat} (n : Nat) (s : ConsumerState N)
    (h : s.phase = WorkerPhase.exited) : workerRun n s = s := by
  induction n with
  | zero => rfl
  | succ k ih =>
    show workerRun k (workerStep s) = s
    rw [workerStep_exited s h, ih]

theorem workerRun_drain {N : Nat} (q : List (RtLogMessage N)) :
    ∀ (run : Bool) (d : List (RtLogMessage N)),
      workerRun (q.length + 1) ⟨run, q, d, WorkerPhase.drainLoop⟩ =
        ⟨run, [], d ++ q, WorkerPhase.sleeping⟩ := by
  induction q with
  | nil => intro run d; simp [workerRun, workerStep]
  | cons m rest ih =>
    intro run d
    have hl : (m :: rest).length + 1 = (rest.length + 1) + 1 := by simp
    rw [hl]
    show workerRun (rest.length + 1)
      (workerStep ⟨run, m :: rest, d, WorkerPhase.drainLoop⟩) = _
    have hstep : workerStep
        (⟨run, m :: rest, d, WorkerPhase.drainLoop⟩ : ConsumerState N) =
        ⟨run, rest, d ++ [m], WorkerPhase.drainLoop⟩ := rfl
    rw [hstep, ih run (d ++ [m])]
    simp

theorem parse_log_level_spec (s : List Nat) :
    RtLogger.parse_log_level s =
      (if lowercased s = bytes "debug" then RtLogLevel.DBG
       else if lowercased s = bytes "info" then RtLogLevel.INFO
       else if lowercased s = bytes "warning" then RtLogLevel.WARNING
       else if lowercased s = bytes "error" then RtLogLevel.ERROR
       else RtLogLevel.INFO) := by
  unfold RtLogger.parse_log_level rtLevelMap
  split_ifs with h1 h2 h3 h4
  · rw [h1]; decide
  · rw [h2]; decide
  · rw [h3]; decide
  · rw [h4]; decide
  · have e1 : (lowercased s == bytes "debug") = false := beq_eq_false_iff_ne.mpr h1
    have e2 : (lowercased s == bytes "info") = false := beq_eq_false_iff_ne.mpr h2
    have e3 : (lowercased s == bytes "warning") = false := beq_eq_false_iff_ne.mpr h3
    have e4 : (lowercased s == bytes "error") = false := beq_eq_false_iff_ne.mpr h4
    simp [List.lookup, e1, e2, e3, e4]

theorem elkLookup_none_iff (k : List Nat) :
    elkLevelMap.lookup k = none ↔
      k ∉ [bytes "debug", bytes "info", bytes "warning", bytes "error",
        bytes "critical"] := by
  by_cases h1 : k = bytes "debug"
  · rw [h1]; decide
  by_cases h2 : k = bytes "info"
  · rw [h2]; decide
  by_cases h3 : k = bytes "warning"
  · rw [h3]; decide
  by_cases h4 : k = bytes "error"
  · rw [h4]; decide
  by_cases h5 : k = bytes "critical"
  · rw [h5]; decide
  have e1 : (k == bytes "debug") = false := beq_eq_false_iff_ne.mpr h1
  have e2 : (k == bytes "info") = false := beq_eq_false_iff_ne.mpr h2
  have e3 : (k == bytes "warning") = false := beq_eq_false_iff_ne.mpr h3
  have e4 : (k == bytes "error") = false := beq_eq_false_iff_ne.mpr h4
  have e5 : (k == bytes "critical") = false := beq_eq_false_iff_ne.mpr h5
  simp [elkLevelMap, List.lookup, e1, e2, e3, e4, e5, h1, h2, h3, h4, h5]

/-- C3: pushing `m1, …, mk` into an (initially empty) transport queue with
no intervening pops succeeds for every message (as long as the sequence fits
the capacity), leaves the queue holding exactly `m1, …, mk` oldest-first,
popping until empty returns them in exactly that order, and the drain worker
loop forwards them to the delivery callback in that same order with no
reordering and no duplication. -/
theorem C3_fifo_order (N C : Nat) (ms : List (RtLogMessage N))
    (h : ms.length ≤ C) :
    (fifoPushSeq C [] ms).2 = List.replicate ms.length true ∧
    (fifoPushSeq C [] ms).1 = ms ∧
    fifoPopAll (fifoPushSeq C [] ms).1 = ms ∧
    (workerRun (ms.length + 1)
      ⟨true, (fifoPushSeq C [] ms).1, [], WorkerPhase.drainLoop⟩).delivered = ms := by
  have hp := fifoPushSeq_all_ok C ms [] (by simpa using h)
  rw [hp, List.nil_append]
  refine ⟨rfl, rfl, fifoPopAll_id ms, ?_⟩
  rw [workerRun_drain ms true []]
  simp

/-- C3 witness: a concrete three-message sequence through a queue of
capacity four. -/
theorem C3_fifo_order_witness :
    (fifoPushSeq 4 [] c3Msgs).1 = c3Msgs ∧
    fifoPopAll (fifoPushSeq 4 [] c3Msgs).1 = c3Msgs ∧
    (workerRun (c3Msgs.length + 1)
      ⟨true, (fifoPushSeq 4 [] c3Msgs).1, [], WorkerPhase.drainLoop⟩).delivered =
      c3Msgs := by
  have h := C3_fifo_order 8 4 c3Msgs (by decide)
  exact ⟨h.2.1, h.2.2.1, h.2.2.2⟩

/-- C4: with the configured minimum level `WARNING`, `log_debug` and
`log_info` return with the logger state unchanged (nothing formatted or
pushed), while `log_warning` and `log_error` append exactly one message to
the queue when it is not full; and the `RtLogLevel` ordinals are
`ERROR = 0 < WARNING = 1 < INFO = 2 < DBG = 3` (most severe lowest). -/
theorem C4_level_filtering (N C : Nat) (st : RtLoggerState N C) (ts : Int)
    (r : List Nat) (hmin : st.min_log_level = RtLogLevel.WARNING) :
    RtLogger.log_debug st ts r = st ∧
    RtLogger.log_info st ts r = st ∧
    (st.queue.length < C →
      (RtLogger.log_warning st ts r).queue =
        st.queue ++ [(RtLogMessage.defaultCtor N []).reset RtLogLevel.WARNING ts r] ∧
      (RtLogger.log_error st ts r).queue =
        st.queue ++ [(RtLogMessage.defaultCtor N []).reset RtLogLevel.ERROR ts r]) ∧
    RtLogLevel.toCInt RtLogLevel.ERROR = 0 ∧
    RtLogLevel.toCInt RtLogLevel.WARNING = 1 ∧
    RtLogLevel.toCInt RtLogLevel.INFO = 2 ∧
    RtLogLevel.toCInt RtLogLevel.DBG = 3 := by
  refine ⟨?_, ?_, ?_, rfl, rfl, rfl, rfl⟩
  · simp [RtLogger.log_debug, RtLogger.log, hmin, RtLogLevel.lt, RtLogLevel.toCInt]
  · simp [RtLogger.log_info, RtLogger.log, hmin, RtLogLevel.lt, RtLogLevel.toCInt]
  · intro hq
    constructor <;>
      simp [RtLogger.log_warning, RtLogger.log_error, RtLogger.log, hmin,
        RtLogLevel.lt, RtLogLevel.toCInt, fifoPush, hq]

/-- C4 witness: a concrete logger at minimum level `WARNING` with an empty
queue of capacity two. -/
theorem C4_level_filtering_witness :
    RtLogger.log_debug (⟨RtLogLevel.WARNING, []⟩ : RtLoggerState 4 2) 0 (bytes "x") =
      ⟨RtLogLevel.WARNING, []⟩ ∧
    (RtLogger.log_warning (⟨RtLogLevel.WARNING, []⟩ : RtLoggerState 4 2) 0 (bytes "x")).queue =
      [] ++ [(RtLogMessage.defaultCtor 4 []).reset RtLogLevel.WARNING 0 (bytes "x")] := by
  have h := C4_level_filtering 4 2 ⟨RtLogLevel.WARNING, []⟩ 0 (bytes "x") rfl
  exact ⟨h.1, (h.2.2.1 (by decide)).1⟩

/-- C5 witness: assigning a concrete well-formed source into a concrete
destination. -/
theorem C5_assign_copies_witness :
    wellFormed c5Src ∧
    ((RtLogMessage.defaultCtor 8 []).assign c5Src).message = c5Src.message ∧
    ((RtLogMessage.defaultCtor 8 []).assign c5Src).length = c5Src.length := by
  have hw : wellFormed c5Src := by decide
  have h := C5_assign_copies 8 (RtLogMessage.defaultCtor 8 []) c5Src hw
  exact ⟨hw, h.2.2.2.1, h.2.2.1⟩

/-- C6: `RtLogger::set_log_level` parses its argument case-insensitively
(after byte-wise `tolower`) against `debug`, `info`, `warning`, `error`,
storing the matching level, and stores `INFO` for every other string; no
error is raised and nothing else in the logger state changes. -/
theorem C6_set_log_level_parse (N C : Nat) (st : RtLoggerState N C)
    (s : List Nat) :
    RtLogger.set_log_level st s =
      { st with min_log_level :=
          if lowercased s = bytes "debug" then RtLogLevel.DBG
          else if lowercased s = bytes "info" then RtLogLevel.INFO
          else if lowercased s = bytes "warning" then RtLogLevel.WARNING
          else if lowercased s = bytes "error" then RtLogLevel.ERROR
          else RtLogLevel.INFO } := by
  unfold RtLogger.set_log_level
  rw [parse_log_level_spec]

/-- C7 counterexample: `"critical"` is not in the claim's four-element set,
yet `ElkLogger::set_log_level` accepts it (its `level_map` has five keys),
so `initialize` does not return `INVALID_LOG_LEVEL` for it — the claimed
"if and only if" is false as stated. -/
theorem C7_claim_counterexample :
    lowercased (bytes "critical") ∉
      [bytes "debug", bytes "info", bytes "warning", bytes "error"] ∧
    ElkLogger.set_log_level_status (bytes "critical") = Status.OK ∧
    (ElkLogger.initializeLogger (bytes "critical") ⟨[]⟩ (bytes "log_1") false).status ≠
      Status.INVALID_LOG_LEVEL := by
  decide

/-- C7 amended: `initialize` returns `INVALID_LOG_LEVEL` if and only if the
configured minimum-level string is not, case-insensitively, one of `debug`,
`info`, `warning`, `error`, `critical`; and on that failure it returns
before any backend logger is created (registry unchanged, no instance). -/
theorem C7_invalid_level_amended (s : List Nat) (reg : SpdRegistry)
    (name : List Nat) (drop : Bool) :
    ((ElkLogger.initializeLogger s reg name drop).status = Status.INVALID_LOG_LEVEL ↔
      lowercased s ∉ [bytes "debug", bytes "info", bytes "warning",
        bytes "error", bytes "critical"]) ∧
    ((ElkLogger.initializeLogger s reg name drop).status = Status.INVALID_LOG_LEVEL →
      (ElkLogger.initializeLogger s reg name drop).registry = reg ∧
      (ElkLogger.initializeLogger s reg name drop).logger_created = false) := by
  by_cases h : elkLevelMap.lookup (lowercased s) = none
  · have hs : ElkLogger.set_log_level_status s = Status.INVALID_LOG_LEVEL := by
      simp [ElkLogger.set_log_level_status, h]
    have hinit : ElkLogger.initializeLogger s reg name drop =
        ⟨Status.INVALID_LOG_LEVEL, reg, false⟩ := by
      simp [ElkLogger.initializeLogger, hs]
    rw [hinit]
    refine ⟨?_, fun _ => ⟨rfl, rfl⟩⟩
    simp [(elkLookup_none_iff (lowercased s)).mp h]
  · have hs : ElkLogger.set_log_level_status s = Status.OK := by
      simp [ElkLogger.set_log_level_status, h]
    have hmem : lowercased s ∈ [bytes "debug", bytes "info", bytes "warning",
        bytes "error", bytes "critical"] := by
      by_contra hn
      exact h ((elkLookup_none_iff (lowercased s)).mpr hn)
    have hne : (ElkLogger.initializeLogger s reg name drop).status ≠
        Status.INVALID_LOG_LEVEL := by
      simp only [ElkLogger.initializeLogger, hs]
      cases hrot : SpdRegistry.rotating_logger_mt
          (if drop then if reg.get name then reg.drop name else reg else reg) name <;>
        simp [hrot]
    refine ⟨?_, fun hc => absurd hc hne⟩
    simp [hne, hmem]

/-- C7 amended witness: the spec's own example string `"debbbug"`. -/
theorem C7_invalid_level_amended_witness :
    (ElkLogger.initializeLogger (bytes "debbbug") ⟨[]⟩ (bytes "log_1") false).status =
      Status.INVALID_LOG_LEVEL ∧
    (ElkLogger.initializeLogger (bytes "debbbug") ⟨[]⟩ (bytes "log_1") false).logger_created =
      false := by
  have h := C7_invalid_level_amended (bytes "debbbug") ⟨[]⟩ (bytes "log_1") false
  have hs := h.1.mpr (by decide)
  exact ⟨hs, (h.2 hs).2⟩

/-- C8: initializing with a logger name that is already registered fails
with `FAILED_TO_START_LOGGER` when `drop_logger_if_duplicate` is false,
leaving the registry (and so the first logger) untouched; with the option
set, the existing registration is dropped first and initialization
succeeds, registering the name again. -/
theorem C8_duplicate_name (min_lvl name : List Nat) (reg : SpdRegistry)
    (hok : ElkLogger.set_log_level_status min_lvl = Status.OK)
    (hmem : name ∈ reg.names) (hnd : reg.names.Nodup) :
    (ElkLogger.initializeLogger min_lvl reg name false).status =
      Status.FAILED_TO_START_LOGGER ∧
    (ElkLogger.initializeLogger min_lvl reg name false).registry = reg ∧
    (ElkLogger.initializeLogger min_lvl reg name false).logger_created = false ∧
    (ElkLogger.initializeLogger min_lvl reg name true).status = Status.OK ∧
    name ∈ (ElkLogger.initializeLogger min_lvl reg name true).registry.names ∧
    (ElkLogger.initializeLogger min_lvl reg name true).logger_created = true := by
  have hget : reg.get name = true := by
    simp [SpdRegistry.get, hmem]
  have hget2 : (reg.drop name).get name = false := by
    simp only [SpdRegistry.get, SpdRegistry.drop, decide_eq_false_iff_not]
    intro hc
    exact ((List.Nodup.mem_erase_iff hnd).mp hc).1 rfl
  have h1 : ElkLogger.initializeLogger min_lvl reg name false =
      ⟨Status.FAILED_TO_START_LOGGER, reg, false⟩ := by
    simp [ElkLogger.initializeLogger, hok, SpdRegistry.rotating_logger_mt, hget]
  have h2 : ElkLogger.initializeLogger min_lvl reg name true =
      ⟨Status.OK, ⟨(reg.drop name).names ++ [name]⟩, true⟩ := by
    simp [ElkLogger.initializeLogger, hok, hget, SpdRegistry.rotating_logger_mt,
      hget2]
  rw [h1, h2]
  refine ⟨rfl, rfl, rfl, rfl, ?_, rfl⟩
  exact List.mem_append_right _ (List.mem_singleton_self name)

/-- C8 witness: name `log_1` already registered, minimum level `info`. -/
theorem C8_duplicate_name_witness :
    (ElkLogger.initializeLogger (bytes "info") ⟨[bytes "log_1"]⟩ (bytes "log_1") false).status =
      Status.FAILED_TO_START_LOGGER ∧
    (ElkLogger.initializeLogger (bytes "info") ⟨[bytes "log_1"]⟩ (bytes "log_1") true).status =
      Status.OK := by
  have h := C8_duplicate_name (bytes "info") (bytes "log_1") ⟨[bytes "log_1"]⟩
    (by decide) (by decide) (by decide)
  exact ⟨h.1, h.2.2.2.1⟩

/-- C9: the destructor first clears `_consumer_running`; from any worker
state, once the flag is cleared the worker (which re-checks the flag at the
loop head after each drain-and-sleep cycle) reaches its exit within
`queue.length + 3` small steps, so the destructor's subsequent join
completes and no thread is left detached. -/
theorem C9_stop_joins (N : Nat) (s : ConsumerState N) :
    (destructorStop s).running = false ∧
    (workerRun ((destructorStop s).queue.length + 3) (destructorStop s)).phase =
      WorkerPhase.exited := by
  obtain ⟨run, q, d, ph⟩ := s
  refine ⟨rfl, ?_⟩
  show (workerRun (q.length + 3) ⟨false, q, d, ph⟩).phase = WorkerPhase.exited
  cases ph with
  | checkFlag =>
    have h : q.length + 3 = 1 + (q.length + 2) := by omega
    rw [h, workerRun_add]
    have h1 : workerRun 1 (⟨false, q, d, WorkerPhase.checkFlag⟩ : ConsumerState N) =
        ⟨false, q, d, WorkerPhase.exited⟩ := by simp [workerRun, workerStep]
    rw [h1, workerRun_exited _ _ rfl]
  | drainLoop =>
    have h : q.length + 3 = (q.length + 1) + 2 := by omega
    rw [h, workerRun_add, workerRun_drain]
    simp [workerRun, workerStep]
  | sleeping =>
    have h : q.length + 3 = 2 + (q.length + 1) := by omega
    rw [h, workerRun_add]
    have h1 : workerRun 2 (⟨false, q, d, WorkerPhase.sleeping⟩ : ConsumerState N) =
        ⟨false, q, d, WorkerPhase.exited⟩ := by simp [workerRun, workerStep]
    rw [h1, workerRun_exited _ _ rfl]
  | exited => rw [workerRun_exited _ _ rfl]

/-- C10: `close_log` always leaves the logger closed, and on a closed logger
every logging entry point (`debug`/`info`/`warning`/`error`/`critical`, on
either the real-time or the direct path) and the real-time drain callback
return with the state completely unchanged — nothing is forwarded to the
real-time queue or the backend. -/
theorem C10_closed_noop (N C : Nat) (st : ElkLoggerState N C) (isRt : Bool)
    (ts : Int) (r : List Nat) (msg : RtLogMessage N) :
    (ElkLogger.close_log st).closed = true ∧
    (st.closed = true →
      ElkLogger.debug st isRt ts r = st ∧
      ElkLogger.info st isRt ts r = st ∧
      ElkLogger.warning st isRt ts r = st ∧
      ElkLogger.error st isRt ts r = st ∧
      ElkLogger.critical st isRt ts r = st ∧
      ElkLogger.rt_logger_callback st msg = st) := by
  constructor
  · unfold ElkLogger.close_log
    split_ifs with h1 h2
    · rfl
    · exact h2
    · rfl
  · intro h
    refine ⟨?_, ?_, ?_, ?_, ?_, ?_⟩ <;>
      simp [ElkLogger.debug, ElkLogger.info, ElkLogger.warning, ElkLogger.error,
        ElkLogger.critical, ElkLogger.rt_logger_callback, h]

/-- C10 witness: a concrete closed text-mode logger state. -/
theorem C10_closed_noop_witness :
    (ElkLogger.close_log c10St).closed = true ∧
    ElkLogger.debug c10St false 0 (bytes "m") = c10St ∧
    ElkLogger.rt_logger_callback c10St (RtLogMessage.defaultCtor 8 []) = c10St := by
  have h := C10_closed_noop 8 4 c10St false 0 (bytes "m")
    (RtLogMessage.defaultCtor 8 [])
  exact ⟨h.1, (h.2 rfl).1, (h.2 rfl).2.2.2.2.2⟩

end elklog
